import Mathlib

/-!
Verification of the Google Meet caption detection and dispatch pipeline
(`GoogleMeetCaptionDetector`).  The detector's string operations, session
state and event handlers are embedded as executable Lean definitions, and
the behavioural properties of the pipeline are proved about them.

Strings are modelled as Lean `String`s; the texts involved are ASCII, where
JavaScript's UTF-16 `length`/`substring`/`startsWith`/`toLowerCase` agree
with character-level `String.length`, `List.drop`, `List.isPrefixOf` and
`Char.toLower`.
-/

namespace CaptionDetector

/-- JS `text.replace(/[.,!?;:]/g, '')`: remove the fixed punctuation set. -/
def stripPunct (cs : List Char) : List Char :=
  cs.filter (fun c => !(c == '.' || c == ',' || c == '!' || c == '?' || c == ';' || c == ':'))

/-- JS `String.prototype.trim`: drop leading and trailing whitespace. -/
def trimChars (cs : List Char) : List Char :=
  ((cs.dropWhile Char.isWhitespace).reverse.dropWhile Char.isWhitespace).reverse

/-- `trimChars` lifted to `String`. -/
def trimStr (s : String) : String :=
  ⟨trimChars s.data⟩

/-- The detector's `normalizeText`:
`text.replace(/[.,!?;:]/g, '').toLowerCase().trim()`. -/
def normalizeText (text : String) : String :=
  trimStr ⟨(stripPunct text.data).map Char.toLower⟩

/-- JS `s.substring(n)`: the suffix of `s` from character index `n`. -/
def strDrop (s : String) (n : Nat) : String :=
  ⟨s.data.drop n⟩

/-- The detector's `extractNewWords(previousText, currentText)` (source lines
438-468): return the whole current text when there is no previous text;
otherwise compare punctuation-stripped, lower-cased, trimmed forms, return
`""` unless the normalized current is strictly longer and extends the
normalized previous, and in the extension case return the trimmed suffix of
the original current text past the original previous text's length provided
it has at least 2 characters. -/
def extractNewWords (previousText currentText : String) : String :=
  if previousText = "" then
    currentText
  else if (normalizeText currentText).length ≤ (normalizeText previousText).length then
    ""
  else if !((normalizeText previousText).data.isPrefixOf (normalizeText currentText).data) then
    ""
  else if 2 ≤ (trimStr (strDrop currentText previousText.length)).length then
    trimStr (strDrop currentText previousText.length)
  else
    ""

example : extractNewWords "Hello wor" "Hello world now" = "ld now" := by decide

example : extractNewWords "" "a" = "a" := by decide

example : extractNewWords "Hello" "Hello there" = "there" := by decide

/-- The mutable fields of `GoogleMeetCaptionDetector` that the caption
pipeline reads or writes (source lines 6-22).  DOM element identities are
opaque handles compared only by reference equality, modelled as `Nat`;
`lastSeenElement = none` is the initial `null`.  JS `Set<string>` objects
are modelled as `List String` used through membership only.  Timers are
modelled by the absolute time at which the pending `setTimeout` callback
would fire (`bufferDeadline = none` when no buffer timeout is pending), and
`observerActive` / `checkIntervalActive` record whether the
`MutationObserver` and the 250 ms polling interval are installed. -/
structure DetectorState where
  isMonitoring : Bool
  monitoringActive : Bool
  isFirstCaption : Bool
  lastProcessedText : String
  lastSeenElement : Option Nat
  wordBuffer : String
  bufferDeadline : Option Nat
  lastTranslationTime : Nat
  processedTexts : List String
  skippedTexts : List String
  processedWords : List String
  observerActive : Bool
  checkIntervalActive : Bool
  deriving DecidableEq, Repr

/-- Field initializers of `GoogleMeetCaptionDetector` (source lines 6-22). -/
def initialState : DetectorState where
  isMonitoring := false
  monitoringActive := false
  isFirstCaption := true
  lastProcessedText := ""
  lastSeenElement := none
  wordBuffer := ""
  bufferDeadline := none
  lastTranslationTime := 0
  processedTexts := []
  skippedTexts := []
  processedWords := []
  observerActive := false
  checkIntervalActive := false

/-- `startCaptionDetection` (source lines 97-116): no-op when already
monitoring; otherwise raise the monitoring flags, clear the word-level and
text-level dedup sets, reset the baseline flag, last text and last element,
and install the mutation observer and the polling interval.  Note that the
word buffer, its pending timeout and the throttle timestamp are not reset
here. -/
def startCaptionDetection (s : DetectorState) : DetectorState :=
  if s.isMonitoring then s
  else
    { s with
      isMonitoring := true
      monitoringActive := true
      processedWords := []
      processedTexts := []
      skippedTexts := []
      isFirstCaption := true
      lastProcessedText := ""
      lastSeenElement := none
      observerActive := true
      checkIntervalActive := true }

/-- `stopCaptionDetection` (source lines 118-141): lower the monitoring
flags, disconnect the observer, cancel the polling interval and the buffer
timeout, clear the word buffer and the text-level sets, and reset the
baseline flag.  Note that `processedWords`, `lastProcessedText` and
`lastSeenCaptionElement` are not touched here. -/
def stopCaptionDetection (s : DetectorState) : DetectorState :=
  { s with
    isMonitoring := false
    monitoringActive := false
    observerActive := false
    checkIntervalActive := false
    bufferDeadline := none
    wordBuffer := ""
    processedTexts := []
    skippedTexts := []
    isFirstCaption := true }

/-- `addToWordBuffer(text)` called at absolute time `now` (source lines
361-394): drop permanently-skipped or already-processed fragments; otherwise
append the fragment to the buffer with a single separating space (or start
the buffer with it), cancel any pending buffer timeout and schedule a new
one 2000 ms from now. -/
def addToWordBuffer (now : Nat) (text : String) (s : DetectorState) : DetectorState :=
  if s.skippedTexts.contains text then s
  else if s.processedTexts.contains text then s
  else
    { s with
      wordBuffer := if s.wordBuffer ≠ "" then s.wordBuffer ++ " " ++ text else text
      bufferDeadline := some (now + 2000) }

/-- The externally visible actions of one `processWordBuffer` run, in
program order. -/
inductive BufferAction where
  | dropSkipped : BufferAction
  | dropDuplicate : BufferAction
  | reschedule : Nat → BufferAction
  | markProcessed : String → BufferAction
  | setTimestamp : Nat → BufferAction
  | invoke : String → BufferAction
  deriving DecidableEq, Repr

/-- `processWordBuffer()` called at absolute time `now` (source lines
396-436), returning the successor state together with the ordered list of
actions it performs.  With a blank buffer the run is a no-op; a
permanently-skipped or already-processed buffer is dropped (buffer
cleared); a run within 2000 ms of the last translation reschedules itself
2000 ms later keeping the buffer; otherwise the throttle timestamp is
updated, the text is recorded into `processedTexts`, and only then is
`sendForTranslation` invoked with it, after which the buffer is cleared. -/
def processWordBuffer (now : Nat) (s : DetectorState) : DetectorState × List BufferAction :=
  if 0 < (trimStr s.wordBuffer).length then
    if s.skippedTexts.contains s.wordBuffer then
      ({ s with wordBuffer := "" }, [.dropSkipped])
    else if s.processedTexts.contains s.wordBuffer then
      ({ s with wordBuffer := "" }, [.dropDuplicate])
    else if now - s.lastTranslationTime < 2000 then
      ({ s with bufferDeadline := some (now + 2000) }, [.reschedule (now + 2000)])
    else
      ({ s with
          lastTranslationTime := now
          processedTexts := s.wordBuffer :: s.processedTexts
          wordBuffer := "" },
       [.setTimestamp now, .markProcessed s.wordBuffer, .invoke s.wordBuffer])
  else (s, [])

/-- The text handed to `sendForTranslation` by a run, if any. -/
def dispatchOf (acts : List BufferAction) : Option String :=
  acts.findSome? (fun a => match a with | .invoke t => some t | _ => none)

/-- The caption-classification body of `checkForClosedCaptions` (source
lines 195-357) for a pass at time `now` in which the locator produced the
caption element `elem` with visible text `foundText`: bail out when not
monitoring; on the first caption record the baseline and return; skip
permanently-skipped texts; ignore unchanged text; otherwise, when the
element is the last seen one, buffer only the extracted new words and only
when the text grew, else buffer the entire text as a new speaker; finally
record the element as last seen.  The same-element versus new-element
branch (source lines 312-348) is split off as `classifyAndBuffer`: when the
element is the last seen one, only the extracted new words are buffered and
only when the text grew; otherwise the entire text is buffered as a new
speaker, and in both buffering branches `lastProcessedText` is updated
first. -/
def classifyAndBuffer (now : Nat) (elem : Nat) (foundText : String) (s : DetectorState) :
    DetectorState :=
  if s.lastSeenElement == some elem then
    if s.lastProcessedText.length < foundText.length then
      if extractNewWords s.lastProcessedText foundText ≠ "" ∧
          0 < (trimStr (extractNewWords s.lastProcessedText foundText)).length then
        addToWordBuffer now (extractNewWords s.lastProcessedText foundText)
          { s with lastProcessedText := foundText }
      else
        { s with lastProcessedText := foundText }
    else s
  else
    addToWordBuffer now foundText { s with lastProcessedText := foundText }

def observeCaption (now : Nat) (elem : Nat) (foundText : String) (s : DetectorState) :
    DetectorState :=
  if !s.monitoringActive then s
  else if s.isFirstCaption then
    { s with lastProcessedText := foundText, isFirstCaption := false }
  else if s.skippedTexts.contains foundText then s
  else if foundText ≠ s.lastProcessedText then
    { classifyAndBuffer now elem foundText s with lastSeenElement := some elem }
  else s

/-- The response fields of the translation backend that `sendForTranslation`
reads.  `confidenceTenths` carries the JS confidence (a literal in tenths:
0.8, 0.5, 0.3 become 8, 5, 3). -/
structure TranslationResult where
  originalText : Option String
  translatedText : Option String
  confidenceTenths : Option Nat
  deriving DecidableEq, Repr

/-- The outcome of the `fetch` inside `sendForTranslation`: the promise
rejects (network error), or it resolves to a response with `ok` status flag
and a parsed body. -/
inductive FetchOutcome where
  | networkError : FetchOutcome
  | httpResponse : Bool → TranslationResult → FetchOutcome
  deriving DecidableEq, Repr

/-- The record handed to `displayTranslation`. -/
structure DisplayData where
  originalText : String
  translatedText : String
  confidenceTenths : Nat
  deriving DecidableEq, Repr

/-- JS `v || dflt` for an optional string: `dflt` when the field is absent
or empty (both falsy). -/
def jsOrString (v : Option String) (dflt : String) : String :=
  match v with
  | some s => if s = "" then dflt else s
  | none => dflt

/-- JS `v || dflt` for an optional number (our uses have non-zero truthy
defaults and results). -/
def jsOrNat (v : Option Nat) (dflt : Nat) : Nat :=
  match v with
  | some n => if n = 0 then dflt else n
  | none => dflt

/-- `sendForTranslation(text)` (source lines 485-547), as the display record
it produces from the fetch outcome: when disconnected, nothing; on a
successful response, the backend's fields with fallbacks; on a non-success
HTTP status, the fallback `"[Translated: <text>]"` with confidence 0.5; on
a thrown network error, caught in the surrounding `try`/`catch`, the
degraded `"[Translation Error: <text>]"` with confidence 0.3.  The request
construction (voiceId lookup, JSON body) and the audio playback that follow
a successful display have no bearing on the displayed record and are not
modelled. -/
def sendForTranslation (isConnected : Bool) (text : String) (outcome : FetchOutcome) :
    Option DisplayData :=
  if !isConnected then none
  else
    match outcome with
    | .httpResponse true result =>
        some
          { originalText := jsOrString result.originalText text
            translatedText := jsOrString result.translatedText "Translation failed"
            confidenceTenths := jsOrNat result.confidenceTenths 8 }
    | .httpResponse false _ =>
        some
          { originalText := text
            translatedText := "[Translated: " ++ text ++ "]"
            confidenceTenths := 5 }
    | .networkError =>
        some
          { originalText := text
            translatedText := "[Translation Error: " ++ text ++ "]"
            confidenceTenths := 3 }

/-- The external triggers of the pipeline: the start and stop commands from
the popup, a locator pass that found caption text on an element, a direct
word-buffer append, and the firing of the buffer's debounce timeout. -/
inductive Event where
  | start : Event
  | stop : Event
  | observe : Nat → String → Event
  | bufferAdd : String → Event
  | timerFire : Event
  deriving DecidableEq, Repr

/-- One trigger handled at absolute time `now`, returning the successor
state and the text dispatched to `sendForTranslation`, if any.  Only the
currently pending buffer timeout can fire (`clearTimeout` cancels stale
ones), after which no timeout is pending unless the run reschedules one. -/
def step (now : Nat) (e : Event) (s : DetectorState) : DetectorState × Option String :=
  match e with
  | .start => (startCaptionDetection s, none)
  | .stop => (stopCaptionDetection s, none)
  | .observe elem text => (observeCaption now elem text s, none)
  | .bufferAdd text => (addToWordBuffer now text s, none)
  | .timerFire =>
      if s.bufferDeadline == some now then
        ((processWordBuffer now { s with bufferDeadline := none }).1,
         dispatchOf (processWordBuffer now { s with bufferDeadline := none }).2)
      else (s, none)

/-- Run a timestamped sequence of triggers, collecting every text handed to
`sendForTranslation` in order. -/
def runEvents : DetectorState → List (Nat × Event) → DetectorState × List String
  | s, [] => (s, [])
  | s, (now, e) :: rest =>
      match step now e s with
      | (s1, out) =>
          match runEvents s1 rest with
          | (sf, outs) => (sf, out.toList ++ outs)

/-! ### Helper lemmas: the dedup sets only grow during a session -/

theorem addToWordBuffer_processedTexts (now : Nat) (t : String) (s : DetectorState) :
    (addToWordBuffer now t s).processedTexts = s.processedTexts := by
  unfold addToWordBuffer; split_ifs <;> rfl

theorem addToWordBuffer_skippedTexts (now : Nat) (t : String) (s : DetectorState) :
    (addToWordBuffer now t s).skippedTexts = s.skippedTexts := by
  unfold addToWordBuffer; split_ifs <;> rfl

theorem classifyAndBuffer_processedTexts (now elem : Nat) (t : String) (s : DetectorState) :
    (classifyAndBuffer now elem t s).processedTexts = s.processedTexts := by
  unfold classifyAndBuffer
  split_ifs <;> simp [addToWordBuffer_processedTexts]

theorem classifyAndBuffer_skippedTexts (now elem : Nat) (t : String) (s : DetectorState) :
    (classifyAndBuffer now elem t s).skippedTexts = s.skippedTexts := by
  unfold classifyAndBuffer
  split_ifs <;> simp [addToWordBuffer_skippedTexts]

theorem observeCaption_processedTexts (now elem : Nat) (t : String) (s : DetectorState) :
    (observeCaption now elem t s).processedTexts = s.processedTexts := by
  unfold observeCaption
  split_ifs <;> simp [classifyAndBuffer_processedTexts]

theorem observeCaption_skippedTexts (now elem : Nat) (t : String) (s : DetectorState) :
    (observeCaption now elem t s).skippedTexts = s.skippedTexts := by
  unfold observeCaption
  split_ifs <;> simp [classifyAndBuffer_skippedTexts]

theorem processWordBuffer_mem (now : Nat) (s : DetectorState) (T : String)
    (h : T ∈ s.processedTexts ∨ T ∈ s.skippedTexts) :
    T ∈ (processWordBuffer now s).1.processedTexts ∨
      T ∈ (processWordBuffer now s).1.skippedTexts := by
  unfold processWordBuffer
  split_ifs <;> simp only [List.mem_cons] <;> tauto

theorem processWordBuffer_dispatch_fresh (now : Nat) (s : DetectorState) (d : String)
    (hd : dispatchOf (processWordBuffer now s).2 = some d) :
    d = s.wordBuffer ∧ d ∉ s.processedTexts ∧ d ∉ s.skippedTexts := by
  unfold processWordBuffer at hd
  split_ifs at hd with h1 h2 h3 h4
  all_goals simp [dispatchOf] at hd
  subst hd
  refine ⟨rfl, ?_, ?_⟩
  · simpa [List.contains, List.elem_eq_mem] using h3
  · simpa [List.contains, List.elem_eq_mem] using h2

theorem processWordBuffer_dispatch_marks (now : Nat) (s : DetectorState) (d : String)
    (hd : dispatchOf (processWordBuffer now s).2 = some d) :
    d ∈ (processWordBuffer now s).1.processedTexts := by
  have hw := (processWordBuffer_dispatch_fresh now s d hd).1
  unfold processWordBuffer at hd ⊢
  split_ifs at hd ⊢ <;> simp [dispatchOf] at hd ⊢
  simp [hw]

/-- A trigger other than start/stop cannot remove a text from the dedup
sets. -/
theorem step_preserves_mem (now : Nat) (e : Event) (s : DetectorState) (T : String)
    (hstart : e ≠ Event.start) (hstop : e ≠ Event.stop)
    (h : T ∈ s.processedTexts ∨ T ∈ s.skippedTexts) :
    T ∈ (step now e s).1.processedTexts ∨ T ∈ (step now e s).1.skippedTexts := by
  cases e with
  | start => exact absurd rfl hstart
  | stop => exact absurd rfl hstop
  | observe elem t =>
      simpa [step, observeCaption_processedTexts, observeCaption_skippedTexts] using h
  | bufferAdd t =>
      simpa [step, addToWordBuffer_processedTexts, addToWordBuffer_skippedTexts] using h
  | timerFire =>
      simp only [step]
      split
      · exact processWordBuffer_mem now _ T (by simpa using h)
      · exact h

/-- A trigger never dispatches a text that is already in a dedup set. -/
theorem step_dispatch_avoids (now : Nat) (e : Event) (s : DetectorState) (T d : String)
    (h : T ∈ s.processedTexts ∨ T ∈ s.skippedTexts)
    (hd : (step now e s).2 = some d) : d ≠ T := by
  cases e with
  | start => simp [step] at hd
  | stop => simp [step] at hd
  | observe elem t => simp [step] at hd
  | bufferAdd t => simp [step] at hd
  | timerFire =>
      simp only [step] at hd
      split at hd
      · have hf := processWordBuffer_dispatch_fresh now
          { s with bufferDeadline := none } d (by simpa using hd)
        intro hdT
        subst hdT
        rcases h with hp | hs
        · exact hf.2.1 (by simpa using hp)
        · exact hf.2.2 (by simpa using hs)
      · simp at hd

/-- A dispatched text is in `processedTexts` immediately after its
dispatching trigger. -/
theorem step_dispatch_marks (now : Nat) (e : Event) (s : DetectorState) (d : String)
    (hd : (step now e s).2 = some d) : d ∈ (step now e s).1.processedTexts := by
  cases e with
  | start => simp [step] at hd
  | stop => simp [step] at hd
  | observe elem t => simp [step] at hd
  | bufferAdd t => simp [step] at hd
  | timerFire =>
      simp only [step] at hd ⊢
      split at hd
      · next hguard =>
          simp only [hguard, if_true]
          exact processWordBuffer_dispatch_marks now _ d (by simpa using hd)
      · simp at hd

/-- Within one session (no start/stop among the triggers), a text that is
in a dedup set is never handed to `sendForTranslation`. -/
theorem runEvents_no_redispatch (T : String) (evs : List (Nat × Event)) (s : DetectorState)
    (hsession : ∀ p ∈ evs, p.2 ≠ Event.start ∧ p.2 ≠ Event.stop)
    (h : T ∈ s.processedTexts ∨ T ∈ s.skippedTexts) :
    T ∉ (runEvents s evs).2 := by
  induction evs generalizing s with
  | nil => simp [runEvents]
  | cons p rest ih =>
      obtain ⟨now, e⟩ := p
      have hp := hsession (now, e) (List.mem_cons_self _ _)
      have hrest : ∀ q ∈ rest, q.2 ≠ Event.start ∧ q.2 ≠ Event.stop :=
        fun q hq => hsession q (List.mem_cons_of_mem _ hq)
      rcases hstep : step now e s with ⟨s1, out⟩
      rcases hrun : runEvents s1 rest with ⟨sf, outs⟩
      have hres : runEvents s ((now, e) :: rest) = (sf, out.toList ++ outs) := by
        simp [runEvents, hstep, hrun]
      rw [hres]
      have hmem1 : T ∈ s1.processedTexts ∨ T ∈ s1.skippedTexts := by
        have := step_preserves_mem now e s T hp.1 hp.2 h
        rwa [hstep] at this
      have houts : T ∉ outs := by
        have := ih s1 hrest hmem1
        rwa [hrun] at this
      intro hmem
      rcases List.mem_append.mp hmem with hin | hin
      · cases out with
        | none => simp at hin
        | some d =>
            have hd : (step now e s).2 = some d := by rw [hstep]
            have := step_dispatch_avoids now e s T d h hd
            simp at hin
            exact this hin.symm
      · exact houts hin

theorem processWordBuffer_processed_mono (now : Nat) (s : DetectorState) (T : String)
    (h : T ∈ s.processedTexts) : T ∈ (processWordBuffer now s).1.processedTexts := by
  unfold processWordBuffer
  split_ifs <;> simp only [List.mem_cons] <;> tauto

theorem step_preserves_processedTexts (now : Nat) (e : Event) (s : DetectorState)
    (T : String) (hstart : e ≠ Event.start) (hstop : e ≠ Event.stop)
    (h : T ∈ s.processedTexts) : T ∈ (step now e s).1.processedTexts := by
  cases e with
  | start => exact absurd rfl hstart
  | stop => exact absurd rfl hstop
  | observe elem t => simpa [step, observeCaption_processedTexts] using h
  | bufferAdd t => simpa [step, addToWordBuffer_processedTexts] using h
  | timerFire =>
      simp only [step]
      split
      · exact processWordBuffer_processed_mono now _ T (by simpa using h)
      · exact h

/-- Within one session, membership of `processedTexts` persists. -/
theorem runEvents_preserves_processed (T : String) (evs : List (Nat × Event))
    (s : DetectorState)
    (hsession : ∀ p ∈ evs, p.2 ≠ Event.start ∧ p.2 ≠ Event.stop)
    (h : T ∈ s.processedTexts) : T ∈ (runEvents s evs).1.processedTexts := by
  induction evs generalizing s with
  | nil => simpa [runEvents]
  | cons p rest ih =>
      obtain ⟨now, e⟩ := p
      have hp := hsession (now, e) (List.mem_cons_self _ _)
      have hrest : ∀ q ∈ rest, q.2 ≠ Event.start ∧ q.2 ≠ Event.stop :=
        fun q hq => hsession q (List.mem_cons_of_mem _ hq)
      rcases hstep : step now e s with ⟨s1, out⟩
      rcases hrun : runEvents s1 rest with ⟨sf, outs⟩
      have hres : runEvents s ((now, e) :: rest) = (sf, out.toList ++ outs) := by
        simp [runEvents, hstep, hrun]
      rw [hres]
      have hmem1 : T ∈ s1.processedTexts := by
        have := step_preserves_processedTexts now e s T hp.1 hp.2 h
        rwa [hstep] at this
      have := ih s1 hrest hmem1
      rwa [hrun] at this

/-- Within one session, each text is handed to `sendForTranslation` at most
once. -/
theorem runEvents_at_most_once (T : String) (evs : List (Nat × Event)) (s : DetectorState)
    (hsession : ∀ p ∈ evs, p.2 ≠ Event.start ∧ p.2 ≠ Event.stop) :
    (runEvents s evs).2.count T ≤ 1 := by
  induction evs generalizing s with
  | nil => simp [runEvents]
  | cons p rest ih =>
      obtain ⟨now, e⟩ := p
      have hp := hsession (now, e) (List.mem_cons_self _ _)
      have hrest : ∀ q ∈ rest, q.2 ≠ Event.start ∧ q.2 ≠ Event.stop :=
        fun q hq => hsession q (List.mem_cons_of_mem _ hq)
      rcases hstep : step now e s with ⟨s1, out⟩
      rcases hrun : runEvents s1 rest with ⟨sf, outs⟩
      have hres : runEvents s ((now, e) :: rest) = (sf, out.toList ++ outs) := by
        simp [runEvents, hstep, hrun]
      rw [hres]
      simp only [List.count_append]
      cases out with
      | none =>
          have := ih s1 hrest
          rw [hrun] at this
          simpa using this
      | some d =>
          by_cases hdT : d = T
          · subst hdT
            have hmark : d ∈ s1.processedTexts := by
              have := step_dispatch_marks now e s d (by rw [hstep])
              rwa [hstep] at this
            have hnone : d ∉ outs := by
              have := runEvents_no_redispatch d rest s1 hrest (Or.inl hmark)
              rwa [hrun] at this
            have : outs.count d = 0 := List.count_eq_zero.mpr hnone
            simp [this]
          · have := ih s1 hrest
            rw [hrun] at this
            simpa [List.count_cons, hdT] using this

/-! ### Further field-preservation lemmas -/

theorem addToWordBuffer_isFirstCaption (now : Nat) (t : String) (s : DetectorState) :
    (addToWordBuffer now t s).isFirstCaption = s.isFirstCaption := by
  unfold addToWordBuffer; split_ifs <;> rfl

theorem classifyAndBuffer_isFirstCaption (now elem : Nat) (t : String) (s : DetectorState) :
    (classifyAndBuffer now elem t s).isFirstCaption = s.isFirstCaption := by
  unfold classifyAndBuffer
  split_ifs <;> simp [addToWordBuffer_isFirstCaption]

theorem observeCaption_keeps_established (now elem : Nat) (t : String) (s : DetectorState)
    (h : s.isFirstCaption = false) : (observeCaption now elem t s).isFirstCaption = false := by
  unfold observeCaption
  split_ifs <;> simp_all [classifyAndBuffer_isFirstCaption]

theorem processWordBuffer_isFirstCaption (now : Nat) (s : DetectorState) :
    (processWordBuffer now s).1.isFirstCaption = s.isFirstCaption := by
  unfold processWordBuffer; split_ifs <;> rfl

/-- Once the baseline is established, no trigger other than stop or start
re-raises the first-caption flag. -/
theorem step_keeps_established (n : Nat) (e : Event) (s1 : DetectorState)
    (hstart : e ≠ Event.start) (hstop : e ≠ Event.stop)
    (h : s1.isFirstCaption = false) : (step n e s1).1.isFirstCaption = false := by
  cases e with
  | start => exact absurd rfl hstart
  | stop => exact absurd rfl hstop
  | observe elem t => exact observeCaption_keeps_established n elem t s1 h
  | bufferAdd t => simpa [step, addToWordBuffer_isFirstCaption] using h
  | timerFire =>
      simp only [step]
      split
      · simpa [processWordBuffer_isFirstCaption] using h
      · exact h

/-- A fresh fragment appended to an empty buffer starts the buffer. -/
theorem addToWordBuffer_fresh_empty (now : Nat) (t : String) (s : DetectorState)
    (h1 : s.skippedTexts.contains t = false) (h2 : s.processedTexts.contains t = false)
    (h3 : s.wordBuffer = "") :
    addToWordBuffer now t s =
      { s with wordBuffer := t, bufferDeadline := some (now + 2000) } := by
  unfold addToWordBuffer
  rw [if_neg (by rw [h1]; exact Bool.false_ne_true),
    if_neg (by rw [h2]; exact Bool.false_ne_true),
    if_neg (by rw [h3]; exact fun h => h rfl)]

/-- A fresh fragment appended to a nonempty buffer joins with one space. -/
theorem addToWordBuffer_fresh_nonempty (now : Nat) (t : String) (s : DetectorState)
    (h1 : s.skippedTexts.contains t = false) (h2 : s.processedTexts.contains t = false)
    (h3 : s.wordBuffer ≠ "") :
    addToWordBuffer now t s =
      { s with wordBuffer := s.wordBuffer ++ " " ++ t,
               bufferDeadline := some (now + 2000) } := by
  unfold addToWordBuffer
  rw [if_neg (by rw [h1]; exact Bool.false_ne_true),
    if_neg (by rw [h2]; exact Bool.false_ne_true),
    if_pos h3]

/-- The dispatching branch of `processWordBuffer` in one equation. -/
theorem processWordBuffer_dispatches (now : Nat) (s : DetectorState)
    (hc : 0 < (trimStr s.wordBuffer).length)
    (h1 : s.skippedTexts.contains s.wordBuffer = false)
    (h2 : s.processedTexts.contains s.wordBuffer = false)
    (h3 : ¬ now - s.lastTranslationTime < 2000) :
    processWordBuffer now s =
      ({ s with
          lastTranslationTime := now,
          processedTexts := s.wordBuffer :: s.processedTexts,
          wordBuffer := "" },
       [BufferAction.setTimestamp now, BufferAction.markProcessed s.wordBuffer,
        BufferAction.invoke s.wordBuffer]) := by
  unfold processWordBuffer
  rw [if_pos hc, if_neg (by rw [h1]; exact Bool.false_ne_true),
    if_neg (by rw [h2]; exact Bool.false_ne_true), if_neg h3]

theorem runEvents_nil (s : DetectorState) : runEvents s [] = (s, []) := rfl

theorem runEvents_cons (s : DetectorState) (now : Nat) (e : Event)
    (rest : List (Nat × Event)) :
    runEvents s ((now, e) :: rest) =
      ((runEvents (step now e s).1 rest).1,
       (step now e s).2.toList ++ (runEvents (step now e s).1 rest).2) := by
  rcases hs : step now e s with ⟨s1, out⟩
  rcases hr : runEvents s1 rest with ⟨sf, outs⟩
  simp [runEvents, hs, hr]

/-! ### Claims -/

/-- C1: once a text T is in the dispatched set (`processedTexts`) or the
permanently-skipped set (`skippedTexts`), `sendForTranslation` is never
invoked with exactly T again during the remaining lifetime of the session
(any further sequence of triggers that contains no start and no stop
command), no matter how often the buffer is flushed or T is re-observed. -/
theorem c1_no_redispatch (T : String) (s : DetectorState) (evs : List (Nat × Event))
    (hmem : T ∈ s.processedTexts ∨ T ∈ s.skippedTexts)
    (hsession : ∀ p ∈ evs, p.2 ≠ Event.start ∧ p.2 ≠ Event.stop) :
    T ∉ (runEvents s evs).2 :=
  runEvents_no_redispatch T evs s hsession hmem

theorem c1_no_redispatch_witness :
    ("hi" ∈ ({ initialState with
        monitoringActive := true, isFirstCaption := false,
        processedTexts := ["hi"], wordBuffer := "hi",
        bufferDeadline := some 100 } : DetectorState).processedTexts ∨
      "hi" ∈ ({ initialState with
        monitoringActive := true, isFirstCaption := false,
        processedTexts := ["hi"], wordBuffer := "hi",
        bufferDeadline := some 100 } : DetectorState).skippedTexts) ∧
    "hi" ∉ (runEvents
      { initialState with
        monitoringActive := true, isFirstCaption := false,
        processedTexts := ["hi"], wordBuffer := "hi",
        bufferDeadline := some 100 }
      [(100, Event.timerFire), (350, Event.observe 2 "hi"),
       (2500, Event.timerFire)]).2 :=
  ⟨Or.inl (by decide),
   c1_no_redispatch "hi" _ _ (Or.inl (by decide)) (by decide)⟩

/-- C2 counterexample: in a fresh session, after the baseline observation
"Hello" on element 1 and a second observation "Hello there" on the same
element, the single dispatch after the debounce delay carries the whole
text "Hello there", not the diff "there" as the claim states: the word
buffer holds "Hello there" and the dispatch list is exactly
["Hello there"]. -/
theorem c2_counterexample :
    (runEvents initialState
      [(0, Event.start), (0, Event.observe 1 "Hello"),
       (250, Event.observe 1 "Hello there")]).1.wordBuffer = "Hello there" ∧
    (runEvents initialState
      [(0, Event.start), (0, Event.observe 1 "Hello"),
       (250, Event.observe 1 "Hello there"), (2250, Event.timerFire)]).2
      = ["Hello there"] ∧
    ("Hello there" : String) ≠ "there" := by
  refine ⟨by decide, by decide, by decide⟩

/-- C2 amended: in a fresh session the baseline pass records "Hello" but
not its element (the last-seen element stays `none`), so the second
observation "Hello there" on the same element is treated as a new turn:
the whole text "Hello there" is appended to the word buffer, and after the
debounce delay exactly one dispatch occurs, carrying "Hello there". -/
theorem c2_amended :
    (runEvents initialState
      [(0, Event.start), (0, Event.observe 1 "Hello")]).1.lastSeenElement = none ∧
    (runEvents initialState
      [(0, Event.start), (0, Event.observe 1 "Hello")]).1.lastProcessedText = "Hello" ∧
    (runEvents initialState
      [(0, Event.start), (0, Event.observe 1 "Hello"),
       (250, Event.observe 1 "Hello there")]).1.wordBuffer = "Hello there" ∧
    (runEvents initialState
      [(0, Event.start), (0, Event.observe 1 "Hello"),
       (250, Event.observe 1 "Hello there")]).1.bufferDeadline = some 2250 ∧
    (runEvents initialState
      [(0, Event.start), (0, Event.observe 1 "Hello"),
       (250, Event.observe 1 "Hello there"), (2250, Event.timerFire)]).2
      = ["Hello there"] := by
  refine ⟨by decide, by decide, by decide, by decide, by decide⟩

/-- C3: for a nonempty previous text, the differ returns `""` whenever the
normalized (punctuation-stripped, lower-cased, trimmed) current text is not
strictly longer than the normalized previous text or does not start with it
as a prefix; otherwise it returns the trimmed suffix of the original
current text from the original previous text's length, subject to the
2-character minimum; and in particular
`extractNewWords "Hello wor" "Hello world now" = "ld now"`. -/
theorem c3_differ_spec (prev curr : String) (hprev : prev ≠ "") :
    (((normalizeText curr).length ≤ (normalizeText prev).length ∨
        ¬ (normalizeText prev).data.isPrefixOf (normalizeText curr).data) →
      extractNewWords prev curr = "") ∧
    ((normalizeText prev).length < (normalizeText curr).length →
      (normalizeText prev).data.isPrefixOf (normalizeText curr).data →
      extractNewWords prev curr =
        (if 2 ≤ (trimStr (strDrop curr prev.length)).length
         then trimStr (strDrop curr prev.length) else "")) ∧
    extractNewWords "Hello wor" "Hello world now" = "ld now" := by
  refine ⟨?_, ?_, by decide⟩
  · intro h
    unfold extractNewWords
    rw [if_neg hprev]
    split_ifs with h1 h2 h3 <;> try rfl
    exfalso
    rcases h with h | h
    · exact h1 h
    · simp at h2
      exact h (by simpa using h2)
  · intro hlen hpre
    unfold extractNewWords
    rw [if_neg hprev, if_neg (Nat.not_le.mpr hlen), if_neg (by simp [hpre])]

theorem c3_differ_spec_witness :
    extractNewWords "Hello wor" "Hello world now" = "ld now" :=
  (c3_differ_spec "Hello wor" "Hello world now" (by decide)).2.2

/-- C10: called with an empty previous text, the differ returns the current
text exactly, with no trimming and no 2-character minimum (also for a
1-character current text). -/
theorem c10_empty_previous (t : String) : extractNewWords "" t = t := by
  unfold extractNewWords
  rw [if_pos rfl]

/-- C4 counterexample: with the baseline established, a text not skipped
and different from the last one, on the same element but not strictly
longer ("Goodbye!" after "Hello world" on element 1), the pass buffers
nothing and leaves the last text unchanged — the claim says such a pass is
a new turn whose whole current text is buffered. -/
theorem c4_counterexample :
    (observeCaption 0 1 "Goodbye!"
      { initialState with
          monitoringActive := true, isFirstCaption := false,
          lastProcessedText := "Hello world", lastSeenElement := some 1 }).wordBuffer
      ≠ "Goodbye!" ∧
    (observeCaption 0 1 "Goodbye!"
      { initialState with
          monitoringActive := true, isFirstCaption := false,
          lastProcessedText := "Hello world", lastSeenElement := some 1 }).wordBuffer
      = "" ∧
    (observeCaption 0 1 "Goodbye!"
      { initialState with
          monitoringActive := true, isFirstCaption := false,
          lastProcessedText := "Hello world", lastSeenElement := some 1 }).lastProcessedText
      = "Hello world" := by
  refine ⟨by decide, by decide, by decide⟩

/-- C4 amended: for a pass with the baseline established, the text not
permanently skipped and different from the last text: on the same element
with strictly longer text the pass is a continuation — only the extracted
diff is buffered (nothing when the diff is empty or blank), with the last
text updated; on a different element the pass is a new turn and the whole
current text is buffered; but on the same element with text not strictly
longer the pass buffers nothing and leaves the last text unchanged, only
re-recording the element. -/
theorem c4_amended (now elem : Nat) (t : String) (s : DetectorState)
    (hact : s.monitoringActive = true) (hbase : s.isFirstCaption = false)
    (hskip : s.skippedTexts.contains t = false) (hneq : t ≠ s.lastProcessedText) :
    (s.lastSeenElement = some elem → s.lastProcessedText.length < t.length →
      (extractNewWords s.lastProcessedText t ≠ "" ∧
        0 < (trimStr (extractNewWords s.lastProcessedText t)).length) →
      observeCaption now elem t s =
        { addToWordBuffer now (extractNewWords s.lastProcessedText t)
            { s with lastProcessedText := t } with lastSeenElement := some elem }) ∧
    (s.lastSeenElement = some elem → s.lastProcessedText.length < t.length →
      ¬ (extractNewWords s.lastProcessedText t ≠ "" ∧
          0 < (trimStr (extractNewWords s.lastProcessedText t)).length) →
      observeCaption now elem t s =
        { s with lastProcessedText := t, lastSeenElement := some elem }) ∧
    (s.lastSeenElement ≠ some elem →
      observeCaption now elem t s =
        { addToWordBuffer now t { s with lastProcessedText := t } with
            lastSeenElement := some elem }) ∧
    (s.lastSeenElement = some elem → t.length ≤ s.lastProcessedText.length →
      observeCaption now elem t s = { s with lastSeenElement := some elem }) := by
  have hg1 : ¬ (!s.monitoringActive) = true := by simp [hact]
  have hg2 : ¬ s.isFirstCaption = true := by simp [hbase]
  have hg3 : ¬ s.skippedTexts.contains t = true := by
    rw [hskip]; exact Bool.false_ne_true
  refine ⟨?_, ?_, ?_, ?_⟩
  · intro h1 h2 h3
    have hsame : (s.lastSeenElement == some elem) = true := by simp [h1]
    unfold observeCaption classifyAndBuffer
    rw [if_neg hg1, if_neg hg2, if_neg hg3, if_pos hneq, if_pos hsame, if_pos h2,
      if_pos h3]
  · intro h1 h2 h3
    have hsame : (s.lastSeenElement == some elem) = true := by simp [h1]
    unfold observeCaption classifyAndBuffer
    rw [if_neg hg1, if_neg hg2, if_neg hg3, if_pos hneq, if_pos hsame, if_pos h2,
      if_neg h3]
  · intro h1
    have hsame : ¬ (s.lastSeenElement == some elem) = true := by simp [h1]
    unfold observeCaption classifyAndBuffer
    rw [if_neg hg1, if_neg hg2, if_neg hg3, if_pos hneq, if_neg hsame]
  · intro h1 h2
    have hsame : (s.lastSeenElement == some elem) = true := by simp [h1]
    have h2b : ¬ s.lastProcessedText.length < t.length := Nat.not_lt.mpr h2
    unfold observeCaption classifyAndBuffer
    rw [if_neg hg1, if_neg hg2, if_neg hg3, if_pos hneq, if_pos hsame, if_neg h2b]

theorem c4_amended_witness :
    (({ initialState with
        monitoringActive := true, isFirstCaption := false,
        lastProcessedText := "Hello", lastSeenElement := some 1 } :
          DetectorState).lastSeenElement ≠ some 2) ∧
    observeCaption 0 2 "Goodbye"
      { initialState with
        monitoringActive := true, isFirstCaption := false,
        lastProcessedText := "Hello", lastSeenElement := some 1 } =
      { addToWordBuffer 0 "Goodbye"
          { ({ initialState with
               monitoringActive := true, isFirstCaption := false,
               lastProcessedText := "Hello", lastSeenElement := some 1 } :
                 DetectorState) with lastProcessedText := "Goodbye" } with
          lastSeenElement := some 2 } :=
  ⟨by decide,
   (c4_amended 0 2 "Goodbye"
      { initialState with
        monitoringActive := true, isFirstCaption := false,
        lastProcessedText := "Hello", lastSeenElement := some 1 }
      (by decide) (by decide) (by decide) (by decide)).2.2.1 (by decide)⟩

/-- C5: a flush of a non-blank buffer performs its checks in order: a
permanently-skipped text is dropped; an already-dispatched text is dropped;
a flush within 2000 ms of the last dispatch keeps the buffer unchanged and
reschedules the same flush 2000 ms later instead of discarding the text;
otherwise the throttle timestamp is updated and the text is recorded into
the dispatched set strictly before `sendForTranslation` is invoked, as the
ordered action list [setTimestamp, markProcessed, invoke] shows. -/
theorem c5_flush_check_order (now : Nat) (s : DetectorState)
    (hcontent : 0 < (trimStr s.wordBuffer).length) :
    (s.skippedTexts.contains s.wordBuffer = true →
      processWordBuffer now s =
        ({ s with wordBuffer := "" }, [BufferAction.dropSkipped])) ∧
    (s.skippedTexts.contains s.wordBuffer = false →
      s.processedTexts.contains s.wordBuffer = true →
      processWordBuffer now s =
        ({ s with wordBuffer := "" }, [BufferAction.dropDuplicate])) ∧
    (s.skippedTexts.contains s.wordBuffer = false →
      s.processedTexts.contains s.wordBuffer = false →
      now - s.lastTranslationTime < 2000 →
      processWordBuffer now s =
        ({ s with bufferDeadline := some (now + 2000) },
         [BufferAction.reschedule (now + 2000)])) ∧
    (s.skippedTexts.contains s.wordBuffer = false →
      s.processedTexts.contains s.wordBuffer = false →
      2000 ≤ now - s.lastTranslationTime →
      processWordBuffer now s =
        ({ s with
            lastTranslationTime := now,
            processedTexts := s.wordBuffer :: s.processedTexts,
            wordBuffer := "" },
         [BufferAction.setTimestamp now, BufferAction.markProcessed s.wordBuffer,
          BufferAction.invoke s.wordBuffer])) := by
  refine ⟨?_, ?_, ?_, ?_⟩
  · intro h1
    unfold processWordBuffer
    rw [if_pos hcontent, if_pos h1]
  · intro h1 h2
    unfold processWordBuffer
    rw [if_pos hcontent, if_neg (by rw [h1]; exact Bool.false_ne_true), if_pos h2]
  · intro h1 h2 h3
    unfold processWordBuffer
    rw [if_pos hcontent, if_neg (by rw [h1]; exact Bool.false_ne_true),
      if_neg (by rw [h2]; exact Bool.false_ne_true), if_pos h3]
  · intro h1 h2 h3
    unfold processWordBuffer
    rw [if_pos hcontent, if_neg (by rw [h1]; exact Bool.false_ne_true),
      if_neg (by rw [h2]; exact Bool.false_ne_true), if_neg (Nat.not_lt.mpr h3)]

theorem c5_flush_check_order_witness :
    0 < (trimStr ({ initialState with wordBuffer := "hello" } :
        DetectorState).wordBuffer).length ∧
    processWordBuffer 5000 { initialState with wordBuffer := "hello" } =
      ({ ({ initialState with wordBuffer := "hello" } : DetectorState) with
          lastTranslationTime := 5000,
          processedTexts := ["hello"],
          wordBuffer := "" },
       [BufferAction.setTimestamp 5000, BufferAction.markProcessed "hello",
        BufferAction.invoke "hello"]) :=
  ⟨by decide,
   (c5_flush_check_order 5000 { initialState with wordBuffer := "hello" }
      (by decide)).2.2.2 (by decide) (by decide) (by decide)⟩

/-- C6: for an active session with the first-caption flag still set, the
first located observation only records its text as the baseline and flips
the flag; that pass dispatches nothing and leaves the word buffer
untouched; and once flipped, the flag stays false for every further
trigger of the session (anything but start/stop). -/
theorem c6_baseline_suppression (now elem : Nat) (T : String) (s : DetectorState)
    (hact : s.monitoringActive = true) (hfirst : s.isFirstCaption = true) :
    observeCaption now elem T s =
      { s with lastProcessedText := T, isFirstCaption := false } ∧
    (step now (Event.observe elem T) s).2 = none ∧
    (observeCaption now elem T s).wordBuffer = s.wordBuffer ∧
    (∀ n e s1, e ≠ Event.start → e ≠ Event.stop → s1.isFirstCaption = false →
      (step n e s1).1.isFirstCaption = false) := by
  refine ⟨?_, rfl, ?_, fun n e s1 h1 h2 h3 => step_keeps_established n e s1 h1 h2 h3⟩
  · simp [observeCaption, hact, hfirst]
  · simp [observeCaption, hact, hfirst]

theorem c6_baseline_suppression_witness :
    ({ initialState with monitoringActive := true } : DetectorState).monitoringActive
      = true ∧
    observeCaption 0 7 "Hello" { initialState with monitoringActive := true } =
      { ({ initialState with monitoringActive := true } : DetectorState) with
          lastProcessedText := "Hello", isFirstCaption := false } :=
  ⟨by decide,
   (c6_baseline_suppression 0 7 "Hello" { initialState with monitoringActive := true }
      (by decide) (by decide)).1⟩

/-- C7: three buffer appends in a burst (each within 500 ms of the
previous) followed by silence produce exactly one flush: every append
space-joins its fragment and cancels-and-restarts the 2000 ms debounce
timer, no dispatch happens during the appends, the single dispatch at the
last append's deadline carries all three fragments space-joined, the
buffer and timer are clear afterwards, and a timer expiry with an empty
buffer is a no-op. -/
theorem c7_debounce_coalescing (t1 t2 t3 : Nat) (f1 f2 f3 : String) (s : DetectorState)
    (hbuf : s.wordBuffer = "") (hproc : s.processedTexts = [])
    (hskip : s.skippedTexts = []) (hlast : s.lastTranslationTime = 0)
    (h12 : t1 ≤ t2) (h23 : t2 ≤ t3)
    (hw12 : t2 ≤ t1 + 500) (hw23 : t3 ≤ t2 + 500)
    (hne1 : f1 ≠ "")
    (hjoin : 0 < (trimStr (f1 ++ " " ++ f2 ++ " " ++ f3)).length) :
    (addToWordBuffer t1 f1 s).bufferDeadline = some (t1 + 2000) ∧
    (addToWordBuffer t2 f2 (addToWordBuffer t1 f1 s)).bufferDeadline = some (t2 + 2000) ∧
    (addToWordBuffer t3 f3 (addToWordBuffer t2 f2 (addToWordBuffer t1 f1 s))).bufferDeadline
      = some (t3 + 2000) ∧
    (addToWordBuffer t3 f3 (addToWordBuffer t2 f2 (addToWordBuffer t1 f1 s))).wordBuffer
      = f1 ++ " " ++ f2 ++ " " ++ f3 ∧
    (runEvents s [(t1, Event.bufferAdd f1), (t2, Event.bufferAdd f2),
       (t3, Event.bufferAdd f3)]).2 = [] ∧
    (runEvents s [(t1, Event.bufferAdd f1), (t2, Event.bufferAdd f2),
       (t3, Event.bufferAdd f3), (t3 + 2000, Event.timerFire)]).2
      = [f1 ++ " " ++ f2 ++ " " ++ f3] ∧
    (runEvents s [(t1, Event.bufferAdd f1), (t2, Event.bufferAdd f2),
       (t3, Event.bufferAdd f3), (t3 + 2000, Event.timerFire)]).1.wordBuffer = "" ∧
    (runEvents s [(t1, Event.bufferAdd f1), (t2, Event.bufferAdd f2),
       (t3, Event.bufferAdd f3), (t3 + 2000, Event.timerFire)]).1.bufferDeadline = none ∧
    (∀ n : Nat, ∀ s1 : DetectorState, s1.wordBuffer = "" → s1.bufferDeadline = some n →
      step n Event.timerFire s1 = ({ s1 with bufferDeadline := none }, none)) := by
  have hne12 : (f1 ++ " " ++ f2) ≠ "" := by
    intro h
    have hlen := congrArg String.length h
    rw [String.length_append, String.length_append,
      show (" " : String).length = 1 by decide,
      show ("" : String).length = 0 by decide] at hlen
    omega
  have e1 : addToWordBuffer t1 f1 s =
      { s with wordBuffer := f1, bufferDeadline := some (t1 + 2000) } :=
    addToWordBuffer_fresh_empty t1 f1 s (by rw [hskip]; rfl) (by rw [hproc]; rfl) hbuf
  have e2 : addToWordBuffer t2 f2
      { s with wordBuffer := f1, bufferDeadline := some (t1 + 2000) } =
      { s with wordBuffer := f1 ++ " " ++ f2, bufferDeadline := some (t2 + 2000) } :=
    addToWordBuffer_fresh_nonempty t2 f2 _
      (by show s.skippedTexts.contains f2 = false; rw [hskip]; rfl)
      (by show s.processedTexts.contains f2 = false; rw [hproc]; rfl) hne1
  have e3 : addToWordBuffer t3 f3
      { s with wordBuffer := f1 ++ " " ++ f2, bufferDeadline := some (t2 + 2000) } =
      { s with wordBuffer := f1 ++ " " ++ f2 ++ " " ++ f3,
               bufferDeadline := some (t3 + 2000) } :=
    addToWordBuffer_fresh_nonempty t3 f3 _
      (by show s.skippedTexts.contains f3 = false; rw [hskip]; rfl)
      (by show s.processedTexts.contains f3 = false; rw [hproc]; rfl) hne12
  have st1 : step t1 (Event.bufferAdd f1) s =
      ({ s with wordBuffer := f1, bufferDeadline := some (t1 + 2000) }, none) := by
    simp [step, e1]
  have st2 : step t2 (Event.bufferAdd f2)
      { s with wordBuffer := f1, bufferDeadline := some (t1 + 2000) } =
      ({ s with wordBuffer := f1 ++ " " ++ f2,
                bufferDeadline := some (t2 + 2000) }, none) := by
    simp [step, e2]
  have st3 : step t3 (Event.bufferAdd f3)
      { s with wordBuffer := f1 ++ " " ++ f2, bufferDeadline := some (t2 + 2000) } =
      ({ s with wordBuffer := f1 ++ " " ++ f2 ++ " " ++ f3,
                bufferDeadline := some (t3 + 2000) }, none) := by
    simp [step, e3]
  have rF : step (t3 + 2000) Event.timerFire
      { s with wordBuffer := f1 ++ " " ++ f2 ++ " " ++ f3,
               bufferDeadline := some (t3 + 2000) } =
      ({ s with wordBuffer := "", bufferDeadline := none,
                lastTranslationTime := t3 + 2000,
                processedTexts := (f1 ++ " " ++ f2 ++ " " ++ f3) :: s.processedTexts },
       some (f1 ++ " " ++ f2 ++ " " ++ f3)) := by
    simp only [step]
    rw [if_pos (by simp)]
    rw [processWordBuffer_dispatches (t3 + 2000)
      { s with wordBuffer := f1 ++ " " ++ f2 ++ " " ++ f3, bufferDeadline := none }
      hjoin
      (by show s.skippedTexts.contains (f1 ++ " " ++ f2 ++ " " ++ f3) = false
          rw [hskip]; rfl)
      (by show s.processedTexts.contains (f1 ++ " " ++ f2 ++ " " ++ f3) = false
          rw [hproc]; rfl)
      (by show ¬ t3 + 2000 - s.lastTranslationTime < 2000
          rw [hlast]; omega)]
    rfl
  have run3 : runEvents s [(t1, Event.bufferAdd f1), (t2, Event.bufferAdd f2),
      (t3, Event.bufferAdd f3)] =
      ({ s with wordBuffer := f1 ++ " " ++ f2 ++ " " ++ f3,
                bufferDeadline := some (t3 + 2000) }, []) := by
    simp [runEvents_cons, runEvents_nil, st1, st2, st3]
  have run4 : runEvents s [(t1, Event.bufferAdd f1), (t2, Event.bufferAdd f2),
      (t3, Event.bufferAdd f3), (t3 + 2000, Event.timerFire)] =
      ({ s with wordBuffer := "", bufferDeadline := none,
                lastTranslationTime := t3 + 2000,
                processedTexts := (f1 ++ " " ++ f2 ++ " " ++ f3) :: s.processedTexts },
       [f1 ++ " " ++ f2 ++ " " ++ f3]) := by
    simp [runEvents_cons, runEvents_nil, st1, st2, st3, rF]
  refine ⟨?_, ?_, ?_, ?_, ?_, ?_, ?_, ?_, ?_⟩
  · rw [e1]
  · rw [e1, e2]
  · rw [e1, e2, e3]
  · rw [e1, e2, e3]
  · rw [run3]
  · rw [run4]
  · rw [run4]
  · rw [run4]
  · intro n s1 hb hd
    simp only [step]
    rw [if_pos (by simp [hd])]
    unfold processWordBuffer
    have hb2 : ({ s1 with bufferDeadline := none } : DetectorState).wordBuffer = "" := hb
    rw [if_neg (by rw [hb2]; decide)]
    rfl

theorem c7_debounce_coalescing_witness :
    (initialState.wordBuffer = "" ∧ initialState.processedTexts = [] ∧
      initialState.skippedTexts = [] ∧ initialState.lastTranslationTime = 0) ∧
    (runEvents initialState
      [(0, Event.bufferAdd "one"), (300, Event.bufferAdd "two"),
       (600, Event.bufferAdd "three"), (2600, Event.timerFire)]).2
      = ["one two three"] :=
  ⟨⟨rfl, rfl, rfl, rfl⟩,
   (c7_debounce_coalescing 0 300 600 "one" "two" "three" initialState
      rfl rfl rfl rfl (by decide) (by decide) (by decide) (by decide)
      (by decide) (by decide)).2.2.2.2.2.1⟩

/-- C8 counterexample: stopping does not clear all session state — after
`stopCaptionDetection`, the processed-words set and the last-observation
state (last text and last element) keep their pre-stop values, contrary to
the claim that both calls clear them. -/
theorem c8_counterexample :
    (stopCaptionDetection
      { initialState with
          processedWords := ["alpha"]
          lastProcessedText := "beta"
          lastSeenElement := some 3 }).processedWords
      = ["alpha"] ∧
    (["alpha"] : List String) ≠ [] ∧
    (stopCaptionDetection
      { initialState with
          processedWords := ["alpha"]
          lastProcessedText := "beta"
          lastSeenElement := some 3 }).lastProcessedText
      = "beta" ∧
    ("beta" : String) ≠ "" ∧
    (stopCaptionDetection
      { initialState with
          processedWords := ["alpha"]
          lastProcessedText := "beta"
          lastSeenElement := some 3 }).lastSeenElement
      = some 3 := by
  refine ⟨by decide, by decide, by decide, by decide, by decide⟩

/-- C8 amended: stopping is idempotent and total — a second stop is
harmless and returns the same state — and each call lowers the monitoring
flags, cancels the observer, the polling interval and the buffer's debounce
timer, clears the dispatched-texts set, the skipped-texts set and the word
buffer, and resets the first-caption flag; but it leaves the
processed-words set and the last-observation state (last text, last
element) untouched (those are only reset by the next start). -/
theorem c8_amended (s : DetectorState) :
    stopCaptionDetection (stopCaptionDetection s) = stopCaptionDetection s ∧
    (stopCaptionDetection s).isMonitoring = false ∧
    (stopCaptionDetection s).monitoringActive = false ∧
    (stopCaptionDetection s).observerActive = false ∧
    (stopCaptionDetection s).checkIntervalActive = false ∧
    (stopCaptionDetection s).bufferDeadline = none ∧
    (stopCaptionDetection s).wordBuffer = "" ∧
    (stopCaptionDetection s).processedTexts = [] ∧
    (stopCaptionDetection s).skippedTexts = [] ∧
    (stopCaptionDetection s).isFirstCaption = true ∧
    (stopCaptionDetection s).processedWords = s.processedWords ∧
    (stopCaptionDetection s).lastProcessedText = s.lastProcessedText ∧
    (stopCaptionDetection s).lastSeenElement = s.lastSeenElement :=
  ⟨rfl, rfl, rfl, rfl, rfl, rfl, rfl, rfl, rfl, rfl, rfl, rfl, rfl⟩

/-- C9 counterexample: a non-success HTTP status does not produce the
degraded string "[Translation Error: <text>]" claimed for it — the
response branch displays "[Translated: <text>]" instead. -/
theorem c9_counterexample :
    (sendForTranslation true "hi" (FetchOutcome.httpResponse false
        { originalText := none, translatedText := none, confidenceTenths := none })).map
      DisplayData.translatedText = some "[Translated: hi]" ∧
    ("[Translated: hi]" : String) ≠ "[Translation Error: hi]" := by
  refine ⟨rfl, by decide⟩

/-- C9 amended: a dispatch failure is caught at the boundary and shown as
a degraded inline translation — "[Translation Error: <text>]" for a thrown
network error, but "[Translated: <text>]" for a non-success HTTP status —
and the dispatched-set membership of the text is not rolled back and the
send is never retried: throughout the rest of the session the text stays
in `processedTexts` and is never handed to `sendForTranslation` again. -/
theorem c9_amended (text T : String) (result : TranslationResult)
    (evs : List (Nat × Event)) (s : DetectorState)
    (hsession : ∀ p ∈ evs, p.2 ≠ Event.start ∧ p.2 ≠ Event.stop)
    (hT : T ∈ s.processedTexts) :
    sendForTranslation true text FetchOutcome.networkError =
      some { originalText := text,
             translatedText := "[Translation Error: " ++ text ++ "]",
             confidenceTenths := 3 } ∧
    sendForTranslation true text (FetchOutcome.httpResponse false result) =
      some { originalText := text,
             translatedText := "[Translated: " ++ text ++ "]",
             confidenceTenths := 5 } ∧
    T ∈ (runEvents s evs).1.processedTexts ∧
    T ∉ (runEvents s evs).2 :=
  ⟨rfl, rfl,
   runEvents_preserves_processed T evs s hsession hT,
   runEvents_no_redispatch T evs s hsession (Or.inl hT)⟩

theorem c9_amended_witness :
    ("oops" ∈ ({ initialState with
          processedTexts := ["oops"]
          monitoringActive := true
          isFirstCaption := false
          wordBuffer := "oops"
          bufferDeadline := some 9000 } : DetectorState).processedTexts) ∧
    "oops" ∉ (runEvents
      { initialState with
          processedTexts := ["oops"]
          monitoringActive := true
          isFirstCaption := false
          wordBuffer := "oops"
          bufferDeadline := some 9000 }
      [(9000, Event.timerFire), (9100, Event.observe 4 "oops")]).2 :=
  ⟨by decide,
   (c9_amended "x" "oops"
      { originalText := none, translatedText := none, confidenceTenths := none }
      [(9000, Event.timerFire), (9100, Event.observe 4 "oops")]
      { initialState with
          processedTexts := ["oops"]
          monitoringActive := true
          isFirstCaption := false
          wordBuffer := "oops"
          bufferDeadline := some 9000 }
      (by decide) (by decide)).2.2.2⟩

end CaptionDetector
